import Mathlib

/-!
Verification of the signing and exchange core of the trustlines clientlib.

The development shallowly embeds:
* `Exchange.getOrderHashHex` (order hashing over the fixed 12-field layout),
* `Exchange.makeOrder` (salt generation), `Exchange.prepTakeOrder`,
  `Exchange.cancelOrder`, `Exchange.getPathObj` (route resolution and the
  no-network sentinel),
* `EthersWallet` (account slot, `loadFrom`, `signMsgHash`, `signMessage`,
  keystore round-trip).

External collaborators (keccak-256, ECDSA, the ethers keystore encryption)
are modelled as explicit parameters or, where the repository's own wrapper
code is not available, from the specification (marked `Modelled from the
spec:`).  Machine numbers are `Nat`/`Int`/`Rat`; the JavaScript
double-precision conversion performed by `BigNumber.toNumber()` is modelled
exactly on integers (round half to even at 53 significant bits).
-/

namespace Clientlib

/-- The zero-address sentinel used by `Exchange` (`ZERO_ADDRESS`). -/
def ZERO_ADDRESS : String := "0x0000000000000000000000000000000000000000"

/-- Decimal digit value of a character (`'0'` ↦ 0, …). -/
def decDigitVal (c : Char) : Nat := c.toNat - 48

/-- Left fold of decimal digits into a natural number. -/
def parseDecList : List Char → Nat → Nat
  | [], acc => acc
  | c :: rest, acc => parseDecList rest (acc * 10 + decDigitVal c)

/-- Parsing of a well-formed decimal digit string, as performed by
`new BigNumber(s, 10)` and `parseInt(s, 10)` on such a string. -/
def parseDec (s : String) : Nat := parseDecList s.data 0

/-- Hex digit value of a character (both cases), 0 otherwise. -/
def hexDigitVal (c : Char) : Nat :=
  if 48 ≤ c.toNat ∧ c.toNat ≤ 57 then c.toNat - 48
  else if 97 ≤ c.toNat ∧ c.toNat ≤ 102 then c.toNat - 87
  else if 65 ≤ c.toNat ∧ c.toNat ≤ 70 then c.toNat - 55
  else 0

/-- Left fold of hex digits into a natural number. -/
def parseHexList : List Char → Nat → Nat
  | [], acc => acc
  | c :: rest, acc => parseHexList rest (acc * 16 + hexDigitVal c)

/-- Parse a hex string, stripping an optional `0x` prefix. -/
def parseHex (s : String) : Nat :=
  match s.data with
  | '0' :: 'x' :: rest => parseHexList rest 0
  | l => parseHexList l 0

/-- Smallest `e` with `n < 2 ^ 53 * 2 ^ e`, computed with fuel: the exponent of
the unit in the last place of `n` as an IEEE-754 double. -/
def ulpExpAux : Nat → Nat → Nat → Nat
  | 0, _, e => e
  | fuel + 1, n, e => if n < 2 ^ 53 * 2 ^ e then e else ulpExpAux fuel n (e + 1)

/-- Exponent of the spacing of doubles around the natural number `n`. -/
def ulpExp (n : Nat) : Nat := ulpExpAux 1100 n 0

/-- `BigNumber.toNumber()` on a non-negative integer value: rounding to the
nearest IEEE-754 double (round half to even on 53 significant bits).  Exact
for values up to `2 ^ 53`; models the double-precision packing step inside
`getOrderHashHex`. -/
def roundToDouble (n : Nat) : Nat :=
  if n < 2 ^ 53 then n
  else
    let u := 2 ^ ulpExp n
    let q := n / u
    let r := n % u
    if r < u / 2 then q * u
    else if u / 2 < r then (q + 1) * u
    else if q % 2 = 0 then q * u
    else (q + 1) * u

/-- `new BigNumber(s, 10).toNumber()`: decimal parse followed by conversion to
a double-precision number. -/
def bigNumberToNumber (s : String) : Nat := roundToDouble (parseDec s)

/-- Big-endian fixed-width byte encoding of a natural number. -/
def natToBytesBE (width n : Nat) : List Nat :=
  (List.range width).map (fun i => n / 256 ^ (width - 1 - i) % 256)

/-- `solidityPack` encoding of an `address` field: exactly 20 bytes. -/
def encodeAddress (s : String) : List Nat := natToBytesBE 20 (parseHex s % 2 ^ 160)

/-- `solidityPack` encoding of a `uint256` field: exactly 32 bytes, big-endian. -/
def encodeUint256 (n : Nat) : List Nat := natToBytesBE 32 (n % 2 ^ 256)

/-- Hex character of a nibble. -/
def hexCharOfNat (n : Nat) : Char :=
  if n < 10 then Char.ofNat (48 + n) else Char.ofNat (87 + n)

/-- `ethUtils.bufferToHex`: `0x`-prefixed lowercase hex rendering of bytes. -/
def bufferToHex (bytes : List Nat) : String :=
  "0x" ++ String.mk
    (bytes.foldr (fun b acc => hexCharOfNat (b / 16) :: hexCharOfNat (b % 16) :: acc) [])

/-- The twelve order fields hashed by `Exchange.getOrderHashHex`.  Amounts,
fees, the expiration timestamp and the salt are carried as the raw decimal
strings the code feeds to `new BigNumber(·, 10)`. -/
structure Order where
  exchangeContractAddress : String
  maker : String
  taker : String
  makerTokenAddress : String
  takerTokenAddress : String
  feeRecipient : String
  makerTokenAmountRaw : String
  takerTokenAmountRaw : String
  makerFeeRaw : String
  takerFeeRaw : String
  expirationUnixTimestampSec : String
  salt : String
  deriving DecidableEq

/-- The byte string fed to keccak-256 by `getOrderHashHex`: the concatenation
of the fixed-width encodings of the twelve fields, in declaration order, with
no separators.  Each `uint256` value first passes through
`new BigNumber(raw, 10).toNumber()` as in the source. -/
def orderHashInput (o : Order) : List Nat :=
  encodeAddress o.exchangeContractAddress ++
  encodeAddress o.maker ++
  encodeAddress o.taker ++
  encodeAddress o.makerTokenAddress ++
  encodeAddress o.takerTokenAddress ++
  encodeAddress o.feeRecipient ++
  encodeUint256 (bigNumberToNumber o.makerTokenAmountRaw) ++
  encodeUint256 (bigNumberToNumber o.takerTokenAmountRaw) ++
  encodeUint256 (bigNumberToNumber o.makerFeeRaw) ++
  encodeUint256 (bigNumberToNumber o.takerFeeRaw) ++
  encodeUint256 (bigNumberToNumber o.expirationUnixTimestampSec) ++
  encodeUint256 (bigNumberToNumber o.salt)

/-- `Exchange.getOrderHashHex`, parametrised over the external keccak-256
implementation (`ethABI.soliditySHA3`'s final hashing step): hex rendering of
the digest of the packed 12-field encoding. -/
def getOrderHashHex (keccak256 : List Nat → List Nat) (o : Order) : String :=
  bufferToHex (keccak256 (orderHashInput o))

theorem natToBytesBE_length (width n : Nat) : (natToBytesBE width n).length = width := by
  simp [natToBytesBE]

theorem encodeAddress_length (s : String) : (encodeAddress s).length = 20 :=
  natToBytesBE_length 20 _

theorem encodeUint256_length (n : Nat) : (encodeUint256 n).length = 32 :=
  natToBytesBE_length 32 _

/-! ## Wallet backend A (`EthersWallet`) -/

/-- Elliptic-curve signature triple as exposed by the library. -/
structure ECSignature where
  r : String
  s : String
  v : Nat
  deriving DecidableEq

/-- Signature shape returned by the signers: the flat compact signature plus
its split triple. -/
structure Signature where
  concatSig : String
  ecSignature : ECSignature
  deriving DecidableEq

/-- External cryptographic collaborators of `EthersWallet` (the ethers
library): keccak-256, ECDSA signing under a private key, and the signature
splitter. -/
structure Crypto where
  keccak256 : List Nat → List Nat
  ecSign : String → List Nat → String
  splitSig : String → ECSignature

/-- Typed failures of the wallet backend (spec taxonomy §7). -/
inductive WalletError where
  | noAccountLoaded
  | invalidMsgHash
  | oddLengthHex
  | wrongPassword
  | formatError
  deriving DecidableEq

/-- Serialized wallet container of type `ethers` (`EthersWalletData`): format
tag, format version and the key payload. -/
structure EthersWalletData where
  walletType : String
  version : Nat
  address : String
  privateKey : String
  mnemonic : Option String
  deriving DecidableEq

/-- Modelled from the spec: the repository's `WalletFromEthers` wrapper
around the external ethers wallet (its file is not under `src/`): the loaded
key material of one account. -/
structure WalletFromEthers where
  address : String
  privateKey : String
  mnemonic : Option String
  deriving DecidableEq

/-- Modelled from the spec: `WALLET_TYPE_ETHERS` from `TLWallet` (file not
under `src/`): the format tag of backend-A containers. -/
def WALLET_TYPE_ETHERS : String := "ethers"

/-- Modelled from the spec: `EXPECTED_VERSIONS` accepted by the backend-A
loader. -/
def EXPECTED_VERSIONS : List Nat := [1]

/-- Modelled from the spec: `verifyWalletData` from `TLWallet` (file not
under `src/`) — rejects an unknown type tag or a version outside the
accepted set with a format error, before the payload is touched. -/
def verifyWalletData (wd : EthersWalletData) (expectedWalletType : String)
    (expectedVersions : List Nat) : Except WalletError Unit :=
  if wd.walletType ≠ expectedWalletType then .error .formatError
  else if wd.version ∉ expectedVersions then .error .formatError
  else .ok ()

/-- Modelled from the spec: `WalletFromEthers.fromWalletData`. -/
def fromWalletData (wd : EthersWalletData) : WalletFromEthers :=
  { address := wd.address, privateKey := wd.privateKey, mnemonic := wd.mnemonic }

/-- Modelled from the spec: `WalletFromEthers.toEthersWalletData`, producing
a container with tag `ethers` and the current format version. -/
def toEthersWalletData (w : WalletFromEthers) : EthersWalletData :=
  { walletType := WALLET_TYPE_ETHERS, version := 1, address := w.address,
    privateKey := w.privateKey, mnemonic := w.mnemonic }

/-- Modelled from the spec: a serialized encrypted ethereum JSON keystore
(output of the external ethers `encrypt`), abstracted to its information
content: an opaque ciphertext whose payload is recoverable exactly under the
password it was encrypted with. -/
structure EncryptedKeystore where
  keystorePassword : String
  payload : EthersWalletData
  deriving DecidableEq

/-- Modelled from the spec: `WalletFromEthers.encrypt` (ethers keystore
encryption under a password-derived key). -/
def walletEncrypt (w : WalletFromEthers) (password : String) : EncryptedKeystore :=
  { keystorePassword := password, payload := toEthersWalletData w }

/-- Modelled from the spec: `WalletFromEthers.fromEncryptedJson` —
decryption succeeds exactly under the original password. -/
def fromEncryptedJson (ks : EncryptedKeystore) (password : String) :
    Except WalletError WalletFromEthers :=
  if ks.keystorePassword = password then .ok (fromWalletData ks.payload)
  else .error .wrongPassword

/-- `EthersWallet`: the single mutable account slot. -/
structure EthersWallet where
  walletFromEthers : Option WalletFromEthers
  deriving DecidableEq

/-- A fresh `EthersWallet` instance: no account loaded yet. -/
def EthersWallet.fresh : EthersWallet := { walletFromEthers := none }

/-- The `address` accessor: fails when no account is loaded. -/
def EthersWallet.getAddress (w : EthersWallet) : Except WalletError String :=
  match w.walletFromEthers with
  | none => .error .noAccountLoaded
  | some wfe => .ok wfe.address

/-- Steps of `EthersWallet.loadFrom` observable in its trace. -/
inductive LoadStep where
  | verify
  | constructFromPayload
  deriving DecidableEq

/-- `EthersWallet.loadFrom`: verifies tag and version first; only on success
is the payload turned into key material and placed into the slot.  Returns
the result, the wallet state (unchanged on failure), and the trace of
steps. -/
def EthersWallet.loadFrom (w : EthersWallet) (wd : EthersWalletData) :
    (Except WalletError Unit × EthersWallet) × List LoadStep :=
  match verifyWalletData wd WALLET_TYPE_ETHERS EXPECTED_VERSIONS with
  | .error e => ((.error e, w), [.verify])
  | .ok _ =>
    ((.ok (), { walletFromEthers := some (fromWalletData wd) }),
     [.verify, .constructFromPayload])

/-- `EthersWallet.encryptToSerializedKeystore`. -/
def encryptToSerializedKeystore (walletData : EthersWalletData) (password : String) :
    EncryptedKeystore :=
  walletEncrypt (fromWalletData walletData) password

/-- `EthersWallet.recoverFromEncryptedKeystore`. -/
def recoverFromEncryptedKeystore (serializedEncryptedKeystore : EncryptedKeystore)
    (password : String) : Except WalletError EthersWalletData :=
  (fromEncryptedJson serializedEncryptedKeystore password).map toEthersWalletData

/-- ASCII bytes of a string. -/
def asciiBytes (s : String) : List Nat := s.data.map Char.toNat

/-- The personal-message header `"\x19Ethereum Signed Message:\n"`. -/
def personalMessageHeader : String := "\x19Ethereum Signed Message:\n"

/-- Modelled from the spec: the standard personal-message scheme — header,
decimal byte length, then the payload itself. -/
def personalMessageBytes (message : List Nat) : List Nat :=
  asciiBytes personalMessageHeader ++ asciiBytes (Nat.repr message.length) ++ message

/-- Modelled from the spec: `WalletFromEthers.signMessage` (ethers): the
personal-message scheme applied once, then the elliptic-curve signature over
the keccak digest. -/
def walletSignMessage (c : Crypto) (wfe : WalletFromEthers) (message : List Nat) : String :=
  c.ecSign wfe.privateKey (c.keccak256 (personalMessageBytes message))

/-- `EthersWallet.signMessage`: signs the given bytes as-is (the personal
prefix is applied by the underlying wallet, exactly once). -/
def EthersWallet.signMessage (c : Crypto) (w : EthersWallet) (message : List Nat) :
    Except WalletError Signature :=
  match w.walletFromEthers with
  | none => .error .noAccountLoaded
  | some wfe =>
    let flat := walletSignMessage c wfe message
    .ok { concatSig := flat, ecSignature := c.splitSig flat }

/-- Hex digit character, both cases (`ethersUtils` hex alphabet). -/
def isHexDigitChar (c : Char) : Bool :=
  (48 ≤ c.toNat && c.toNat ≤ 57) || (97 ≤ c.toNat && c.toNat ≤ 102) ||
    (65 ≤ c.toNat && c.toNat ≤ 70)

/-- `ethersUtils.isHexString` with no length argument: a `0x` prefix followed
by any number of hex digits. -/
def isHexString (s : String) : Bool :=
  match s.data with
  | '0' :: 'x' :: rest => rest.all isHexDigitChar
  | _ => false

/-- Pairs of hex digits folded into bytes; fails on an odd number of
digits. -/
def hexPairsToBytes : List Char → Except WalletError (List Nat)
  | [] => .ok []
  | [_] => .error .oddLengthHex
  | c1 :: c2 :: rest =>
    (hexPairsToBytes rest).map (fun bs => (hexDigitVal c1 * 16 + hexDigitVal c2) :: bs)

/-- `ethersUtils.arrayify` on a hex string: the decoded byte sequence, or a
failure on an odd number of hex digits. -/
def arrayify (s : String) : Except WalletError (List Nat) :=
  match s.data with
  | '0' :: 'x' :: rest => hexPairsToBytes rest
  | l => hexPairsToBytes l

/-- `EthersWallet.signMsgHash`: requires a loaded account and a well-formed
hex string, decodes the hex to bytes and delegates to `signMessage`. -/
def EthersWallet.signMsgHash (c : Crypto) (w : EthersWallet) (msgHash : String) :
    Except WalletError Signature :=
  match w.walletFromEthers with
  | none => .error .noAccountLoaded
  | some _ =>
    if isHexString msgHash then
      match arrayify msgHash with
      | .error e => .error e
      | .ok msgHashBytes => EthersWallet.signMessage c w msgHashBytes
    else .error .invalidMsgHash

/-! ## Exchange pipeline (`prepTakeOrder`, `cancelOrder`, `getPathObj`,
`makeOrder`) -/

/-- Route object returned by the path-finding collaborator or substituted as
the no-network sentinel. -/
structure PathObj where
  path : List String
  maxFees : ℚ
  estimatedGas : Nat
  isNoNetwork : Bool
  deriving DecidableEq

/-- Collaborator calls observable in the trace of an exchange operation. -/
inductive ExEff where
  | getDecimals (token : String)
  | getFees
  | isNetworkCheck (token : String)
  | fetchPath (token frm dst : String)
  | prepFuncTx (functionName : String)
  | signTx
  | relayTx
  deriving DecidableEq

/-- One element of the heterogeneous argument array of `prepFuncTx`. -/
inductive FuncArg where
  | addrList (l : List String)
  | natList (l : List Nat)
  | rat (x : ℚ)
  | nat (n : Nat)
  | str (s : String)
  deriving DecidableEq

/-- A `transaction.prepFuncTx` invocation as built by the exchange. -/
structure FuncTxCall where
  txFrom : String
  txTo : String
  contractName : String
  functionName : String
  args : List FuncArg
  gasLimit : Option ℚ
  deriving DecidableEq

/-- Result shape of `transaction.prepFuncTx`. -/
structure RawTxEthFees where
  rawTx : String
  ethFees : ℚ
  deriving DecidableEq

/-- External collaborators of `Exchange`: currency-network membership test,
path finding, decimals lookup and the transaction builder. -/
structure ExchangeEnv where
  isNetwork : String → Bool
  getPath : String → String → String → ℚ → PathObj
  getDecimals : String → Nat
  prepFuncTx : FuncTxCall → RawTxEthFees

/-- A signed order as consumed by `prepTakeOrder`/`cancelOrder`: the hashed
fields plus the decimal-adjusted amount values and the attached signature. -/
structure SignedOrder extends Order where
  makerTokenAmountValue : ℚ
  takerTokenAmountValue : ℚ
  ecSignature : ECSignature
  deriving DecidableEq

/-- Typed failures of the exchange pipeline. -/
inductive ExError where
  | routeNotFound
  deriving DecidableEq

/-- `Exchange.getFees`: fees are disabled — the relay round-trip is replaced
by zero fees and the zero-address fee recipient. -/
def applyFees (o : Order) : Order :=
  { o with feeRecipient := ZERO_ADDRESS, makerFeeRaw := "0", takerFeeRaw := "0" }

/-- `Exchange.getOrderAddresses`. -/
def getOrderAddresses (o : Order) : List String :=
  [o.maker, ZERO_ADDRESS, o.makerTokenAddress, o.takerTokenAddress, o.feeRecipient]

/-- `Exchange.toInt` on a raw decimal string (`parseInt(s, 10)`). -/
def toInt (s : String) : Nat := parseDec s

/-- `Exchange.getOrderValues` (fees hard-coded to zero). -/
def getOrderValues (o : Order) : List Nat :=
  [toInt o.makerTokenAmountRaw, toInt o.takerTokenAmountRaw, 0, 0,
   toInt o.expirationUnixTimestampSec, toInt o.salt]

/-- `Exchange.getPathObj`: consult the path-finding collaborator when the
token belongs to the trustline network; otherwise substitute the fixed-gas
direct-transfer sentinel route.  Also returns the trace of collaborator
calls. -/
def getPathObj (env : ExchangeEnv) (tokenAddress frm dst : String) (value : ℚ) :
    PathObj × List ExEff :=
  if env.isNetwork tokenAddress then
    (env.getPath tokenAddress frm dst value,
     [.isNetworkCheck tokenAddress, .fetchPath tokenAddress frm dst])
  else
    ({ path := [], maxFees := 0, estimatedGas := 40000, isNoNetwork := true },
     [.isNetworkCheck tokenAddress])

/-- `Exchange.getPartialAmount`: `numerator * target / denominator` in exact
arithmetic. -/
def getPartialAmount (numerator denominator target : ℚ) : ℚ :=
  numerator * target / denominator

/-- `utils.calcRaw`: scale a decimal-adjusted value by the token's
decimals. -/
def calcRaw (value : ℚ) (decimals : Nat) : ℚ := value * 10 ^ decimals

/-- Result shape of `prepTakeOrder`. -/
structure PrepTakeResult where
  rawTx : String
  ethFees : ℚ
  makerMaxFees : ℚ
  makerPath : List String
  takerMaxFees : ℚ
  takerPath : List String
  deriving DecidableEq

/-- `Exchange.prepTakeOrder`: decimals and fees are fetched, a route is
resolved for the maker-token leg and the taker-token leg, the empty-route
guard runs, and only then is the `fillOrderTrustlines` call prepared.
Returns the result and the trace of collaborator calls; signing and relay
submission belong to the separate `confirm` step and never appear here. -/
def prepTakeOrder (env : ExchangeEnv) (userAddress : String) (so : SignedOrder)
    (fillTakerTokenValue : ℚ) : Except ExError PrepTakeResult × List ExEff :=
  let takerDecimals := env.getDecimals so.takerTokenAddress
  let orderWithFees := applyFees so.toOrder
  let m := getPathObj env so.makerTokenAddress so.maker userAddress
    (getPartialAmount fillTakerTokenValue so.takerTokenAmountValue so.makerTokenAmountValue)
  let t := getPathObj env so.takerTokenAddress userAddress so.maker fillTakerTokenValue
  let effs := [ExEff.getDecimals so.makerTokenAddress,
    ExEff.getDecimals so.takerTokenAddress, ExEff.getFees] ++ m.2 ++ t.2
  if (m.1.path.isEmpty && !m.1.isNoNetwork) || (t.1.path.isEmpty && !t.1.isNoNetwork) then
    (.error .routeNotFound, effs)
  else
    let call : FuncTxCall :=
      { txFrom := userAddress
        txTo := so.exchangeContractAddress
        contractName := "Exchange"
        functionName := "fillOrderTrustlines"
        args :=
          [.addrList (getOrderAddresses orderWithFees),
           .natList (getOrderValues orderWithFees),
           .rat (calcRaw fillTakerTokenValue takerDecimals),
           .addrList (if m.1.path.length = 1 then m.1.path else m.1.path.drop 1),
           .addrList (if t.1.path.length = 1 then t.1.path else t.1.path.drop 1),
           .nat so.ecSignature.v, .str so.ecSignature.r, .str so.ecSignature.s]
        gasLimit := some (((t.1.estimatedGas + m.1.estimatedGas : Nat) : ℚ) * 3 / 2) }
    let tx := env.prepFuncTx call
    (.ok { rawTx := tx.rawTx, ethFees := tx.ethFees, makerMaxFees := m.1.maxFees,
           makerPath := m.1.path, takerMaxFees := t.1.maxFees, takerPath := t.1.path },
     effs ++ [.prepFuncTx "fillOrderTrustlines"])

/-- Result shape of `cancelOrder`. -/
structure CancelResult where
  rawTx : String
  ethFees : ℚ
  deriving DecidableEq

/-- `Exchange.cancelOrder`: fetches the taker decimals and the fees, then
directly prepares the on-chain call — no route resolution happens on either
leg. -/
def cancelOrder (env : ExchangeEnv) (userAddress : String) (so : SignedOrder)
    (cancelTakerTokenValue : ℚ) (gasLimit : Option ℚ) :
    Except ExError CancelResult × List ExEff :=
  let takerDecimals := env.getDecimals so.takerTokenAddress
  let orderWithFees := applyFees so.toOrder
  let call : FuncTxCall :=
    { txFrom := userAddress
      txTo := so.exchangeContractAddress
      contractName := "Exchange"
      functionName := "fillOrderTrustlines"
      args :=
        [.addrList (getOrderAddresses orderWithFees),
         .natList (getOrderValues orderWithFees),
         .rat (calcRaw cancelTakerTokenValue takerDecimals),
         .nat so.ecSignature.v, .str so.ecSignature.r, .str so.ecSignature.s]
      gasLimit := gasLimit }
  let tx := env.prepFuncTx call
  (.ok { rawTx := tx.rawTx, ethFees := tx.ethFees },
   [.getDecimals so.takerTokenAddress, .getFees, .prepFuncTx "fillOrderTrustlines"])

/-- Whether an effect consults the path-finding side (network-membership
check or path fetch). -/
def isRouteResolutionEff : ExEff → Bool
  | .fetchPath _ _ _ => true
  | .isNetworkCheck _ => true
  | _ => false

/-- Whether an effect prepares, signs or submits a transaction. -/
def isSubmissionEff : ExEff → Bool
  | .prepFuncTx _ => true
  | .signTx => true
  | .relayTx => true
  | _ => false

/-- Any route-resolution effect in a trace. -/
def anyRouteResolution (effs : List ExEff) : Bool := effs.any isRouteResolutionEff

/-- Any preparation/signing/submission effect in a trace. -/
def anySubmission (effs : List ExEff) : Bool := effs.any isSubmissionEff

/-- The salt drawn by `Exchange.makeOrder`:
`Math.floor(Math.random() * 1000000000)`, where the random draw `r` ranges
over `[0, 1)`. -/
def makeOrderSalt (r : ℚ) : Nat := (Int.floor (r * 1000000000)).toNat

/-- The pure order-construction part of `Exchange.makeOrder`: taker and fee
recipient are the zero address, fees are zero, the salt is the decimal
string of the drawn salt.  Token amounts arrive from the amount-formatting
collaborator and the checksum conversion from `ethereumjs-util`, both passed
in. -/
def makeOrder (userAddress exchangeContractAddress : String)
    (checksum : String → String) (makerTokenAddress takerTokenAddress : String)
    (makerTokenAmountRaw takerTokenAmountRaw : String)
    (expirationUnixTimestampSec : Nat) (r : ℚ) : Order :=
  { exchangeContractAddress := exchangeContractAddress
    maker := userAddress
    taker := ZERO_ADDRESS
    makerTokenAddress := checksum makerTokenAddress
    takerTokenAddress := checksum takerTokenAddress
    feeRecipient := ZERO_ADDRESS
    makerTokenAmountRaw := makerTokenAmountRaw
    takerTokenAmountRaw := takerTokenAmountRaw
    makerFeeRaw := "0"
    takerFeeRaw := "0"
    expirationUnixTimestampSec := Nat.repr expirationUnixTimestampSec
    salt := Nat.repr (makeOrderSalt r) }

/-! ## Sample data and small helpers used by witnesses -/

/-- Whether an `Except` result is a success. -/
def exceptIsOk {ε α : Type} : Except ε α → Bool
  | .ok _ => true
  | .error _ => false

/-- An all-zero order: every address is the zero address, every numeric raw
string is `"0"`. -/
def sampleOrder : Order :=
  { exchangeContractAddress := ZERO_ADDRESS
    maker := ZERO_ADDRESS
    taker := ZERO_ADDRESS
    makerTokenAddress := ZERO_ADDRESS
    takerTokenAddress := ZERO_ADDRESS
    feeRecipient := ZERO_ADDRESS
    makerTokenAmountRaw := "0"
    takerTokenAmountRaw := "0"
    makerFeeRaw := "0"
    takerFeeRaw := "0"
    expirationUnixTimestampSec := "0"
    salt := "0" }

/-- The all-zero order with a chosen salt string. -/
def mkSaltOrder (saltValue : String) : Order := { sampleOrder with salt := saltValue }

/-- Concrete stand-in for the external cryptographic collaborators. -/
def sampleCrypto : Crypto :=
  { keccak256 := fun _ => []
    ecSign := fun _ _ => "0xflatsig"
    splitSig := fun _ => { r := "0xr", s := "0xs", v := 27 } }

/-- Concrete loaded key material. -/
def sampleWfe : WalletFromEthers :=
  { address := "0xA", privateKey := "0xK", mnemonic := none }

/-- A wallet holding `sampleWfe` in its account slot. -/
def loadedWallet : EthersWallet := { walletFromEthers := some sampleWfe }

/-- A container with an unknown tag and an unsupported version. -/
def badWalletData : EthersWalletData :=
  { walletType := "unknown", version := 99, address := "0xA", privateKey := "0xK",
    mnemonic := none }

/-- Environment whose path finder always answers with an empty non-sentinel
route. -/
def sampleEnvNoRoute : ExchangeEnv :=
  { isNetwork := fun _ => true
    getPath := fun _ _ _ _ => { path := [], maxFees := 0, estimatedGas := 21000,
                                isNoNetwork := false }
    getDecimals := fun _ => 2
    prepFuncTx := fun _ => { rawTx := "0xraw", ethFees := 1 } }

/-- Environment for which no token belongs to the trustline network. -/
def sampleEnvNoNetwork : ExchangeEnv :=
  { isNetwork := fun _ => false
    getPath := fun _ _ _ _ => { path := [], maxFees := 0, estimatedGas := 21000,
                                isNoNetwork := false }
    getDecimals := fun _ => 2
    prepFuncTx := fun _ => { rawTx := "0xraw", ethFees := 1 } }

/-- A signed all-zero order. -/
def sampleSignedOrder : SignedOrder :=
  { toOrder := sampleOrder
    makerTokenAmountValue := 1
    takerTokenAmountValue := 1
    ecSignature := { r := "0xr", s := "0xs", v := 27 } }

/-- The trace of a `getPathObj` call never prepares, signs or submits a
transaction. -/
theorem getPathObj_trace_no_submission (env : ExchangeEnv) (tok frm dst : String)
    (v : ℚ) : anySubmission (getPathObj env tok frm dst v).2 = false := by
  unfold getPathObj anySubmission
  split <;> simp [isSubmissionEff]

/-! ## Theorems for the claims -/

/-- Values of at most `2 ^ 53` convert to a double exactly. -/
theorem roundToDouble_eq_of_le {n : Nat} (h : n ≤ 2 ^ 53) : roundToDouble n = n := by
  rcases Nat.lt_or_ge n (2 ^ 53) with h1 | h1
  · unfold roundToDouble
    rw [if_pos h1]
  · have : n = 2 ^ 53 := le_antisymm h h1
    subst this
    decide

/-- C1: `getOrderHashHex` hashes exactly the twelve order fields, in the
fixed declaration order — exchange contract, maker, taker, maker token,
taker token, fee recipient, then maker amount, taker amount, maker fee,
taker fee, expiration, salt — as the separator-free concatenation of their
fixed-width encodings (20-byte address words, 32-byte uint256 words) passed
to the keccak-256 collaborator; the digest is a pure function of the twelve
fields, so repeated calls agree and the caller-side field insertion order is
irrelevant (the last conjunct rebuilds the order with the fields given in
the reverse insertion order). -/
theorem getOrderHashHex_fixed_twelve_field_layout (keccak256 : List Nat → List Nat)
    (o : Order) :
    getOrderHashHex keccak256 o =
      bufferToHex (keccak256 (
        encodeAddress o.exchangeContractAddress ++
        encodeAddress o.maker ++
        encodeAddress o.taker ++
        encodeAddress o.makerTokenAddress ++
        encodeAddress o.takerTokenAddress ++
        encodeAddress o.feeRecipient ++
        encodeUint256 (bigNumberToNumber o.makerTokenAmountRaw) ++
        encodeUint256 (bigNumberToNumber o.takerTokenAmountRaw) ++
        encodeUint256 (bigNumberToNumber o.makerFeeRaw) ++
        encodeUint256 (bigNumberToNumber o.takerFeeRaw) ++
        encodeUint256 (bigNumberToNumber o.expirationUnixTimestampSec) ++
        encodeUint256 (bigNumberToNumber o.salt))) ∧
    (encodeAddress o.exchangeContractAddress).length = 20 ∧
    (encodeAddress o.maker).length = 20 ∧
    (encodeAddress o.taker).length = 20 ∧
    (encodeAddress o.makerTokenAddress).length = 20 ∧
    (encodeAddress o.takerTokenAddress).length = 20 ∧
    (encodeAddress o.feeRecipient).length = 20 ∧
    (encodeUint256 (bigNumberToNumber o.makerTokenAmountRaw)).length = 32 ∧
    (encodeUint256 (bigNumberToNumber o.takerTokenAmountRaw)).length = 32 ∧
    (encodeUint256 (bigNumberToNumber o.makerFeeRaw)).length = 32 ∧
    (encodeUint256 (bigNumberToNumber o.takerFeeRaw)).length = 32 ∧
    (encodeUint256 (bigNumberToNumber o.expirationUnixTimestampSec)).length = 32 ∧
    (encodeUint256 (bigNumberToNumber o.salt)).length = 32 ∧
    getOrderHashHex keccak256 o =
      getOrderHashHex keccak256
        { salt := o.salt
          expirationUnixTimestampSec := o.expirationUnixTimestampSec
          takerFeeRaw := o.takerFeeRaw
          makerFeeRaw := o.makerFeeRaw
          takerTokenAmountRaw := o.takerTokenAmountRaw
          makerTokenAmountRaw := o.makerTokenAmountRaw
          feeRecipient := o.feeRecipient
          takerTokenAddress := o.takerTokenAddress
          makerTokenAddress := o.makerTokenAddress
          taker := o.taker
          maker := o.maker
          exchangeContractAddress := o.exchangeContractAddress } :=
  ⟨rfl, encodeAddress_length _, encodeAddress_length _, encodeAddress_length _,
   encodeAddress_length _, encodeAddress_length _, encodeAddress_length _,
   encodeUint256_length _, encodeUint256_length _, encodeUint256_length _,
   encodeUint256_length _, encodeUint256_length _, encodeUint256_length _, rfl⟩

set_option maxRecDepth 100000 in
/-- C2 counterexample: uint256 fields above `2 ^ 53` are neither encoded
exactly nor rejected.  The salt `9007199254740993 = 2 ^ 53 + 1` parses to
`2 ^ 53 + 1` but is packed as the double `2 ^ 53`, so the whole keccak input
of an order carrying that salt coincides with the one of the order carrying
salt `9007199254740992 = 2 ^ 53` — a silent precision loss with no failure
anywhere. -/
theorem orderHash_precision_loss_above_two_pow_53 :
    parseDec "9007199254740993" = 9007199254740993 ∧
    bigNumberToNumber "9007199254740993" = 9007199254740992 ∧
    orderHashInput (mkSaltOrder "9007199254740993") =
      orderHashInput (mkSaltOrder "9007199254740992") ∧
    mkSaltOrder "9007199254740993" ≠ mkSaltOrder "9007199254740992" := by
  refine ⟨by decide, by decide, by decide, by decide⟩

/-- C2 amended: for every order whose six uint256 fields carry decimal values
of at most `2 ^ 53`, the double-precision packing is lossless and the hash
input encodes exactly the supplied integers; values above `2 ^ 53` are not
rejected but silently rounded (see the counterexample). -/
theorem orderHash_encodes_small_uints_exactly (o : Order)
    (h1 : parseDec o.makerTokenAmountRaw ≤ 2 ^ 53)
    (h2 : parseDec o.takerTokenAmountRaw ≤ 2 ^ 53)
    (h3 : parseDec o.makerFeeRaw ≤ 2 ^ 53)
    (h4 : parseDec o.takerFeeRaw ≤ 2 ^ 53)
    (h5 : parseDec o.expirationUnixTimestampSec ≤ 2 ^ 53)
    (h6 : parseDec o.salt ≤ 2 ^ 53) :
    orderHashInput o =
      encodeAddress o.exchangeContractAddress ++
      encodeAddress o.maker ++
      encodeAddress o.taker ++
      encodeAddress o.makerTokenAddress ++
      encodeAddress o.takerTokenAddress ++
      encodeAddress o.feeRecipient ++
      encodeUint256 (parseDec o.makerTokenAmountRaw) ++
      encodeUint256 (parseDec o.takerTokenAmountRaw) ++
      encodeUint256 (parseDec o.makerFeeRaw) ++
      encodeUint256 (parseDec o.takerFeeRaw) ++
      encodeUint256 (parseDec o.expirationUnixTimestampSec) ++
      encodeUint256 (parseDec o.salt) := by
  unfold orderHashInput bigNumberToNumber
  rw [roundToDouble_eq_of_le h1, roundToDouble_eq_of_le h2, roundToDouble_eq_of_le h3,
    roundToDouble_eq_of_le h4, roundToDouble_eq_of_le h5, roundToDouble_eq_of_le h6]

/-- C2 witness: the amended theorem applied to the all-zero order. -/
theorem orderHash_encodes_small_uints_exactly_witness :
    parseDec sampleOrder.makerTokenAmountRaw ≤ 2 ^ 53 ∧
    parseDec sampleOrder.salt ≤ 2 ^ 53 ∧
    orderHashInput sampleOrder =
      encodeAddress sampleOrder.exchangeContractAddress ++
      encodeAddress sampleOrder.maker ++
      encodeAddress sampleOrder.taker ++
      encodeAddress sampleOrder.makerTokenAddress ++
      encodeAddress sampleOrder.takerTokenAddress ++
      encodeAddress sampleOrder.feeRecipient ++
      encodeUint256 (parseDec sampleOrder.makerTokenAmountRaw) ++
      encodeUint256 (parseDec sampleOrder.takerTokenAmountRaw) ++
      encodeUint256 (parseDec sampleOrder.makerFeeRaw) ++
      encodeUint256 (parseDec sampleOrder.takerFeeRaw) ++
      encodeUint256 (parseDec sampleOrder.expirationUnixTimestampSec) ++
      encodeUint256 (parseDec sampleOrder.salt) :=
  ⟨by decide, by decide,
   orderHash_encodes_small_uints_exactly sampleOrder (by decide) (by decide) (by decide)
     (by decide) (by decide) (by decide)⟩

/-- C3 counterexample: a loaded wallet accepts the two-hex-digit digest
`"0x12"`, which is not a fixed-width 32-byte hash (66 characters with the
`0x` prefix): `signMsgHash` succeeds instead of failing, so the fixed-width
part of the claim does not hold on the code — only hex well-formedness is
checked. -/
theorem signMsgHash_no_fixed_width_check :
    exceptIsOk (EthersWallet.signMsgHash sampleCrypto loadedWallet "0x12") = true ∧
    isHexString "0x12" = true ∧
    "0x12".length ≠ 66 := by
  refine ⟨rfl, rfl, by decide⟩

/-- C3 amended: `signMsgHash` fails with the no-account-loaded error on every
instance whose slot is empty, and on a loaded instance it fails with the
invalid-input error whenever the digest is not a well-formed `0x`-prefixed
hex string; the 32-byte width of the digest is not checked. -/
theorem signMsgHash_error_conditions (c : Crypto) (w : EthersWallet) (d : String) :
    (w.walletFromEthers = none →
      EthersWallet.signMsgHash c w d = .error .noAccountLoaded) ∧
    (w.walletFromEthers ≠ none → isHexString d = false →
      EthersWallet.signMsgHash c w d = .error .invalidMsgHash) := by
  constructor
  · intro h
    unfold EthersWallet.signMsgHash
    rw [h]
  · intro h hhex
    rcases hw : w.walletFromEthers with _ | wfe
    · exact absurd hw h
    · unfold EthersWallet.signMsgHash
      rw [hw, hhex]
      rfl

/-- C3 witness: the amended theorem applied to a fresh wallet and to a loaded
wallet with the non-hex input `"zz"`. -/
theorem signMsgHash_error_conditions_witness :
    EthersWallet.fresh.walletFromEthers = none ∧
    loadedWallet.walletFromEthers ≠ none ∧
    isHexString "zz" = false ∧
    EthersWallet.signMsgHash sampleCrypto EthersWallet.fresh "0xab" =
      .error .noAccountLoaded ∧
    EthersWallet.signMsgHash sampleCrypto loadedWallet "zz" =
      .error .invalidMsgHash :=
  ⟨rfl, by decide, rfl,
   (signMsgHash_error_conditions sampleCrypto EthersWallet.fresh "0xab").1 rfl,
   (signMsgHash_error_conditions sampleCrypto loadedWallet "zz").2 (by decide) rfl⟩

/-- C4: on a loaded wallet, `signMsgHash` of a well-formed hex digest signs
exactly the byte sequence decoded from the hex string under the
personal-message scheme applied once — the keccak input is the header, the
decimal payload length and the decoded payload, with no second prefixing —
and it coincides with `signMessage` on the decoded bytes; `signMessage`
itself signs the given bytes as-is, so the two entry points stay
distinct. -/
theorem signMsgHash_personal_message_scheme_once (c : Crypto) (w : EthersWallet)
    (wfe : WalletFromEthers) (d : String) (msgHashBytes : List Nat)
    (hw : w.walletFromEthers = some wfe)
    (hhex : isHexString d = true)
    (harr : arrayify d = .ok msgHashBytes) :
    EthersWallet.signMsgHash c w d =
      .ok { concatSig :=
              c.ecSign wfe.privateKey (c.keccak256 (personalMessageBytes msgHashBytes))
            ecSignature :=
              c.splitSig
                (c.ecSign wfe.privateKey (c.keccak256 (personalMessageBytes msgHashBytes))) } ∧
    EthersWallet.signMsgHash c w d = EthersWallet.signMessage c w msgHashBytes ∧
    personalMessageBytes msgHashBytes =
      asciiBytes personalMessageHeader ++
        asciiBytes (Nat.repr msgHashBytes.length) ++ msgHashBytes := by
  have hsm : EthersWallet.signMessage c w msgHashBytes =
      .ok { concatSig := walletSignMessage c wfe msgHashBytes
            ecSignature := c.splitSig (walletSignMessage c wfe msgHashBytes) } := by
    unfold EthersWallet.signMessage
    rw [hw]
  have hmain : EthersWallet.signMsgHash c w d = EthersWallet.signMessage c w msgHashBytes := by
    unfold EthersWallet.signMsgHash
    rw [hw, hhex]
    simp only [if_true]
    rw [harr]
  refine ⟨?_, hmain, rfl⟩
  rw [hmain, hsm]
  rfl

/-- C4 witness: the digest `"0x12"` decodes to the byte `18` and is signed
through the personal-message scheme by the loaded sample wallet. -/
theorem signMsgHash_personal_message_scheme_once_witness :
    loadedWallet.walletFromEthers = some sampleWfe ∧
    isHexString "0x12" = true ∧
    arrayify "0x12" = .ok [18] ∧
    EthersWallet.signMsgHash sampleCrypto loadedWallet "0x12" =
      EthersWallet.signMessage sampleCrypto loadedWallet [18] :=
  ⟨rfl, rfl, rfl,
   (signMsgHash_personal_message_scheme_once sampleCrypto loadedWallet sampleWfe
     "0x12" [18] rfl rfl rfl).2.1⟩

/-- Any-submission distributes over trace concatenation. -/
theorem anySubmission_append (l1 l2 : List ExEff) :
    anySubmission (l1 ++ l2) = (anySubmission l1 || anySubmission l2) := by
  simp [anySubmission]

/-- C5: when the maker-token leg or the taker-token leg of `prepTakeOrder`
resolves to an empty path without the no-network sentinel flag, the whole
operation fails with the route-not-found error, and its trace contains no
transaction preparation, signing or network submission. -/
theorem prepTakeOrder_empty_route_fails_fast (env : ExchangeEnv) (userAddress : String)
    (so : SignedOrder) (fillTakerTokenValue : ℚ)
    (h : (((getPathObj env so.makerTokenAddress so.maker userAddress
              (getPartialAmount fillTakerTokenValue so.takerTokenAmountValue
                so.makerTokenAmountValue)).1.path.isEmpty &&
            !(getPathObj env so.makerTokenAddress so.maker userAddress
              (getPartialAmount fillTakerTokenValue so.takerTokenAmountValue
                so.makerTokenAmountValue)).1.isNoNetwork) ||
           ((getPathObj env so.takerTokenAddress userAddress so.maker
              fillTakerTokenValue).1.path.isEmpty &&
            !(getPathObj env so.takerTokenAddress userAddress so.maker
              fillTakerTokenValue).1.isNoNetwork)) = true) :
    (prepTakeOrder env userAddress so fillTakerTokenValue).1 = .error .routeNotFound ∧
    anySubmission (prepTakeOrder env userAddress so fillTakerTokenValue).2 = false := by
  have heq : prepTakeOrder env userAddress so fillTakerTokenValue =
      (.error .routeNotFound,
        [ExEff.getDecimals so.makerTokenAddress, ExEff.getDecimals so.takerTokenAddress,
         ExEff.getFees] ++
          (getPathObj env so.makerTokenAddress so.maker userAddress
            (getPartialAmount fillTakerTokenValue so.takerTokenAmountValue
              so.makerTokenAmountValue)).2 ++
          (getPathObj env so.takerTokenAddress userAddress so.maker
            fillTakerTokenValue).2) := by
    simp only [prepTakeOrder]
    rw [h]
    rfl
  rw [heq]
  refine ⟨rfl, ?_⟩
  rw [anySubmission_append, anySubmission_append, getPathObj_trace_no_submission,
    getPathObj_trace_no_submission]
  simp [anySubmission, isSubmissionEff]

/-- C5 witness: an environment whose path finder always answers the empty
non-sentinel route makes `prepTakeOrder` fail with the route-not-found
error and prepare nothing. -/
theorem prepTakeOrder_empty_route_fails_fast_witness :
    (((getPathObj sampleEnvNoRoute sampleSignedOrder.makerTokenAddress
          sampleSignedOrder.maker ZERO_ADDRESS
          (getPartialAmount 1 sampleSignedOrder.takerTokenAmountValue
            sampleSignedOrder.makerTokenAmountValue)).1.path.isEmpty &&
        !(getPathObj sampleEnvNoRoute sampleSignedOrder.makerTokenAddress
          sampleSignedOrder.maker ZERO_ADDRESS
          (getPartialAmount 1 sampleSignedOrder.takerTokenAmountValue
            sampleSignedOrder.makerTokenAmountValue)).1.isNoNetwork) ||
       ((getPathObj sampleEnvNoRoute sampleSignedOrder.takerTokenAddress
          ZERO_ADDRESS sampleSignedOrder.maker 1).1.path.isEmpty &&
        !(getPathObj sampleEnvNoRoute sampleSignedOrder.takerTokenAddress
          ZERO_ADDRESS sampleSignedOrder.maker 1).1.isNoNetwork)) = true ∧
    (prepTakeOrder sampleEnvNoRoute ZERO_ADDRESS sampleSignedOrder 1).1 =
      .error .routeNotFound ∧
    anySubmission (prepTakeOrder sampleEnvNoRoute ZERO_ADDRESS sampleSignedOrder 1).2 =
      false :=
  ⟨rfl,
   prepTakeOrder_empty_route_fails_fast sampleEnvNoRoute ZERO_ADDRESS
     sampleSignedOrder 1 rfl⟩

/-- C8: a token outside the trustline network makes `getPathObj` substitute
the fixed-gas direct-transfer sentinel route — empty path, zero max fees,
estimated gas 40000, no-network flag set — and a `prepTakeOrder` whose
maker-token leg received this sentinel does not fail with the
route-not-found error on account of that leg (it succeeds whenever the other
leg has a path or the sentinel). -/
theorem getPathObj_sentinel_no_route_error (env : ExchangeEnv) (userAddress : String)
    (so : SignedOrder) (fillTakerTokenValue v : ℚ)
    (hm : env.isNetwork so.makerTokenAddress = false)
    (ht : (getPathObj env so.takerTokenAddress userAddress so.maker
            fillTakerTokenValue).1.path ≠ [] ∨
          (getPathObj env so.takerTokenAddress userAddress so.maker
            fillTakerTokenValue).1.isNoNetwork = true) :
    (getPathObj env so.makerTokenAddress so.maker userAddress v).1 =
      { path := [], maxFees := 0, estimatedGas := 40000, isNoNetwork := true } ∧
    (prepTakeOrder env userAddress so fillTakerTokenValue).1 ≠ .error .routeNotFound ∧
    exceptIsOk (prepTakeOrder env userAddress so fillTakerTokenValue).1 = true := by
  have hsent : ∀ val : ℚ, getPathObj env so.makerTokenAddress so.maker userAddress val =
      ({ path := [], maxFees := 0, estimatedGas := 40000, isNoNetwork := true },
       [ExEff.isNetworkCheck so.makerTokenAddress]) := by
    intro val
    unfold getPathObj
    rw [hm]
    rfl
  have hte : ((getPathObj env so.takerTokenAddress userAddress so.maker
      fillTakerTokenValue).1.path.isEmpty &&
      !(getPathObj env so.takerTokenAddress userAddress so.maker
        fillTakerTokenValue).1.isNoNetwork) = false := by
    rcases ht with ht | ht
    · have hpe : (getPathObj env so.takerTokenAddress userAddress so.maker
          fillTakerTokenValue).1.path.isEmpty = false := by
        rcases hp : (getPathObj env so.takerTokenAddress userAddress so.maker
            fillTakerTokenValue).1.path with _ | ⟨a, rest⟩
        · exact absurd hp ht
        · rfl
      rw [hpe]
      rfl
    · rw [ht]
      simp
  have hguard : (((getPathObj env so.makerTokenAddress so.maker userAddress
        (getPartialAmount fillTakerTokenValue so.takerTokenAmountValue
          so.makerTokenAmountValue)).1.path.isEmpty &&
      !(getPathObj env so.makerTokenAddress so.maker userAddress
        (getPartialAmount fillTakerTokenValue so.takerTokenAmountValue
          so.makerTokenAmountValue)).1.isNoNetwork) ||
     ((getPathObj env so.takerTokenAddress userAddress so.maker
        fillTakerTokenValue).1.path.isEmpty &&
      !(getPathObj env so.takerTokenAddress userAddress so.maker
        fillTakerTokenValue).1.isNoNetwork)) = false := by
    rw [hsent, hte]
    rfl
  refine ⟨congrArg Prod.fst (hsent v), ?_, ?_⟩
  · simp only [prepTakeOrder]
    rw [hguard]
    simp
  · simp only [prepTakeOrder]
    rw [hguard]
    rfl

/-- C8 witness: with no token in the trustline network, both legs receive the
sentinel and the fill preparation succeeds. -/
theorem getPathObj_sentinel_no_route_error_witness :
    sampleEnvNoNetwork.isNetwork sampleSignedOrder.makerTokenAddress = false ∧
    ((getPathObj sampleEnvNoNetwork sampleSignedOrder.takerTokenAddress ZERO_ADDRESS
        sampleSignedOrder.maker 1).1.path ≠ [] ∨
     (getPathObj sampleEnvNoNetwork sampleSignedOrder.takerTokenAddress ZERO_ADDRESS
        sampleSignedOrder.maker 1).1.isNoNetwork = true) ∧
    ((getPathObj sampleEnvNoNetwork sampleSignedOrder.makerTokenAddress
        sampleSignedOrder.maker ZERO_ADDRESS 1).1 =
      { path := [], maxFees := 0, estimatedGas := 40000, isNoNetwork := true } ∧
     (prepTakeOrder sampleEnvNoNetwork ZERO_ADDRESS sampleSignedOrder 1).1 ≠
        .error .routeNotFound ∧
     exceptIsOk (prepTakeOrder sampleEnvNoNetwork ZERO_ADDRESS sampleSignedOrder 1).1 =
        true) :=
  ⟨rfl, Or.inr rfl,
   getPathObj_sentinel_no_route_error sampleEnvNoNetwork ZERO_ADDRESS
     sampleSignedOrder 1 1 rfl (Or.inr rfl)⟩

/-- C9 counterexample: a concrete cancellation on an environment where both
order tokens belong to the trustline network consults the path-finding
collaborator zero times (its trace holds no network-membership check and no
path fetch) and still succeeds, contradicting the claim that `cancelOrder`
resolves a route for each of the two legs exactly as the fill path does. -/
theorem cancelOrder_sample_no_route_resolution :
    sampleEnvNoRoute.isNetwork sampleSignedOrder.makerTokenAddress = true ∧
    sampleEnvNoRoute.isNetwork sampleSignedOrder.takerTokenAddress = true ∧
    anyRouteResolution
      (cancelOrder sampleEnvNoRoute ZERO_ADDRESS sampleSignedOrder 1 none).2 = false ∧
    exceptIsOk
      (cancelOrder sampleEnvNoRoute ZERO_ADDRESS sampleSignedOrder 1 none).1 = true :=
  ⟨rfl, rfl, rfl, rfl⟩

/-- C9 amended: `cancelOrder` prepares the on-chain contract call directly —
its trace is exactly the taker-decimals lookup, the fee enrichment and the
`prepFuncTx` call, with no route resolution on either leg; only the fill
path (`prepTakeOrder`) resolves routes. -/
theorem cancelOrder_prepares_call_without_routes (env : ExchangeEnv)
    (userAddress : String) (so : SignedOrder) (cancelTakerTokenValue : ℚ)
    (gasLimit : Option ℚ) :
    (cancelOrder env userAddress so cancelTakerTokenValue gasLimit).2 =
      [ExEff.getDecimals so.takerTokenAddress, ExEff.getFees,
       ExEff.prepFuncTx "fillOrderTrustlines"] ∧
    anyRouteResolution
      (cancelOrder env userAddress so cancelTakerTokenValue gasLimit).2 = false ∧
    exceptIsOk
      (cancelOrder env userAddress so cancelTakerTokenValue gasLimit).1 = true :=
  ⟨rfl, rfl, rfl⟩

/-- C6: encrypting wallet data under a password and then decrypting the
resulting serialized keystore with the same password
(`recoverFromEncryptedKeystore`, then `loadFrom`) yields an account whose
address equals the address of the original wallet data. -/
theorem keystore_roundtrip_preserves_address (wd : EthersWalletData)
    (password : String) (w0 : EthersWallet) :
    recoverFromEncryptedKeystore (encryptToSerializedKeystore wd password) password =
      .ok (toEthersWalletData (fromWalletData wd)) ∧
    EthersWallet.getAddress
        ((EthersWallet.loadFrom w0 (toEthersWalletData (fromWalletData wd))).1.2) =
      .ok wd.address := by
  constructor
  · unfold recoverFromEncryptedKeystore encryptToSerializedKeystore walletEncrypt
      fromEncryptedJson
    rw [if_pos rfl]
    rfl
  · simp [EthersWallet.loadFrom, verifyWalletData, toEthersWalletData, WALLET_TYPE_ETHERS,
      EXPECTED_VERSIONS, fromWalletData, EthersWallet.getAddress]

/-- C7: a container whose type tag is unknown or whose version lies outside
the accepted set is rejected by `loadFrom` with the format error; the
verification happens before any operation touches the payload (the trace is
the verification step alone), the previously active slot is unchanged, and
subsequent address and signing calls behave exactly as before the failed
load. -/
theorem loadFrom_rejects_bad_container_keeps_slot (w : EthersWallet)
    (wd : EthersWalletData) (c : Crypto) (d : String)
    (h : wd.walletType ≠ WALLET_TYPE_ETHERS ∨ wd.version ∉ EXPECTED_VERSIONS) :
    (EthersWallet.loadFrom w wd).1.1 = .error .formatError ∧
    (EthersWallet.loadFrom w wd).1.2 = w ∧
    (EthersWallet.loadFrom w wd).2 = [LoadStep.verify] ∧
    LoadStep.constructFromPayload ∉ (EthersWallet.loadFrom w wd).2 ∧
    EthersWallet.getAddress (EthersWallet.loadFrom w wd).1.2 =
      EthersWallet.getAddress w ∧
    EthersWallet.signMsgHash c ((EthersWallet.loadFrom w wd).1.2) d =
      EthersWallet.signMsgHash c w d := by
  have hv : verifyWalletData wd WALLET_TYPE_ETHERS EXPECTED_VERSIONS =
      .error .formatError := by
    unfold verifyWalletData
    rcases h with h | h
    · rw [if_pos h]
    · by_cases ht : wd.walletType = WALLET_TYPE_ETHERS
      · rw [if_neg (not_not_intro ht), if_pos h]
      · rw [if_pos ht]
  have heq : EthersWallet.loadFrom w wd = ((.error .formatError, w), [LoadStep.verify]) := by
    unfold EthersWallet.loadFrom
    rw [hv]
  rw [heq]
  refine ⟨rfl, rfl, rfl, by simp, rfl, rfl⟩

/-- C7 witness: the rejection theorem applied to a container with an unknown
tag and an out-of-range version, starting from the loaded sample wallet. -/
theorem loadFrom_rejects_bad_container_keeps_slot_witness :
    (badWalletData.walletType ≠ WALLET_TYPE_ETHERS ∨
      badWalletData.version ∉ EXPECTED_VERSIONS) ∧
    (EthersWallet.loadFrom loadedWallet badWalletData).1.1 = .error .formatError ∧
    (EthersWallet.loadFrom loadedWallet badWalletData).1.2 = loadedWallet ∧
    EthersWallet.signMsgHash sampleCrypto
        ((EthersWallet.loadFrom loadedWallet badWalletData).1.2) "0x12" =
      EthersWallet.signMsgHash sampleCrypto loadedWallet "0x12" := by
  have happ := loadFrom_rejects_bad_container_keeps_slot loadedWallet badWalletData
    sampleCrypto "0x12" (Or.inl (by decide))
  exact ⟨Or.inl (by decide), happ.1, happ.2.1, happ.2.2.2.2.2⟩

/-- C10: for every possible random draw `r` in `[0, 1)`, the salt placed into
the order by `makeOrder` is the decimal string of a non-negative integer
strictly below `10 ^ 9` (and hence far below both `2 ^ 30` doublings of the
256-bit field width used when the salt is later hashed as a uint256). -/
theorem makeOrder_salt_below_billion (userAddress exchangeContractAddress : String)
    (checksum : String → String) (makerTokenAddress takerTokenAddress : String)
    (makerTokenAmountRaw takerTokenAmountRaw : String)
    (expirationUnixTimestampSec : Nat) (r : ℚ)
    (h0 : 0 ≤ r) (h1 : r < 1) :
    (makeOrder userAddress exchangeContractAddress checksum makerTokenAddress
        takerTokenAddress makerTokenAmountRaw takerTokenAmountRaw
        expirationUnixTimestampSec r).salt = Nat.repr (makeOrderSalt r) ∧
    makeOrderSalt r < 1000000000 := by
  refine ⟨rfl, ?_⟩
  unfold makeOrderSalt
  have h2 : Int.floor (r * 1000000000) < 1000000000 := by
    rw [Int.floor_lt]
    push_cast
    nlinarith
  omega

/-- C10 witness: the salt bound applied to the draw `r = 0`. -/
theorem makeOrder_salt_below_billion_witness :
    (0 : ℚ) ≤ 0 ∧ (0 : ℚ) < 1 ∧
    ((makeOrder ZERO_ADDRESS ZERO_ADDRESS id ZERO_ADDRESS ZERO_ADDRESS "0" "0"
        2524604400 0).salt = Nat.repr (makeOrderSalt 0) ∧
      makeOrderSalt 0 < 1000000000) :=
  ⟨le_refl 0, by norm_num,
   makeOrder_salt_below_billion ZERO_ADDRESS ZERO_ADDRESS id ZERO_ADDRESS ZERO_ADDRESS
     "0" "0" 2524604400 0 (le_refl 0) (by norm_num)⟩

end Clientlib
